import Mathlib

/-!
Shallow embedding of the notification backend (src/server/index.js and the
server variants under src/unnamed). The four collections (devices, pending
messages, sent messages, broadcasts) become lists inside a `St` record; each
HTTP handler becomes a pure function from a state and a request body to an
`Except Err` result carrying the updated state. JavaScript timestamps
(`Date.now()`, `new Date().toISOString()`) are modelled by an explicit `now :
Nat` parameter; `Date.now().toString()` identifier generation becomes
`toString now`. A string-typed body field that may be absent is an
`Option String`, with `none` for an absent key; JavaScript truthiness of a
string field ("present and non-empty") is `strPresent`. The opaque `data`
payloads, which no handler inspects beyond copying, are not modelled.
-/

namespace NotificationBackend

/-- JavaScript truthiness of an optional string request field: present and
non-empty. -/
def strPresent : Option String → Bool
  | some s => s ≠ ""
  | none => false

/-- JavaScript `x || default` for an optional string field. -/
def orDefault (o : Option String) (d : String) : String :=
  match o with
  | some s => if s ≠ "" then s else d
  | none => d

/-- A device record (devices.json entry). -/
structure Device where
  id : String
  token : String
  userId : Option String
  platform : String
  deviceName : Option String
  email : Option String
  createdAt : Nat
  lastSeen : Nat
deriving DecidableEq

/-- Request body of POST /api/devices. `none` marks an absent key. -/
structure DeviceInput where
  token : String
  userId : Option String := none
  platform : Option String := none
  deviceName : Option String := none
  email : Option String := none
deriving DecidableEq

/-- A pending message record. -/
structure PendingMsg where
  id : String
  title : String
  body : String
  createdAt : Nat
  status : String
deriving DecidableEq

/-- A per-device recipient entry of a sent message. -/
structure Recipient where
  deviceId : String
  token : String
  userId : Option String
  status : String
  readAt : Option Nat
deriving DecidableEq

/-- A sent message record. `targetType` is `none` for records created by
POST /api/messages/send, which does not set the field. -/
structure SentMsg where
  id : String
  title : String
  body : String
  createdAt : Nat
  sentAt : Nat
  status : String
  targetType : Option String
  recipients : List Recipient
deriving DecidableEq

/-- A broadcast record. -/
structure Broadcast where
  id : String
  title : String
  message : String
  btype : String
  sentAt : Nat
  recipients : List String
  receivedBy : List String
deriving DecidableEq

/-- Request body of POST /api/users. -/
structure UserInput where
  id : String
  token : Option String := none
  platform : Option String := none
  deviceName : Option String := none
  displayName : Option String := none
  email : Option String := none
deriving DecidableEq

/-- The whole persistent state: the four collections. -/
structure St where
  devices : List Device
  pending : List PendingMsg
  sent : List SentMsg
  broadcasts : List Broadcast
deriving DecidableEq

/-- The initial state: all four collections empty. -/
def initSt : St := ⟨[], [], [], []⟩

/-- Handler outcome taxonomy: HTTP 400 and HTTP 404 with their messages. -/
inductive Err where
  | validation (msg : String)
  | notFound (msg : String)
deriving DecidableEq

/-- Replace the first element satisfying `p` by its image under `f`
(the `findIndex` + mutate-in-place idiom of the handlers). -/
def updateFirstBy (p : α → Bool) (f : α → α) : List α → List α
  | [] => []
  | a :: as => if p a then f a :: as else a :: updateFirstBy p f as

/-- Remove the first element satisfying `p` (the `findIndex` +
`splice(index, 1)` idiom). -/
def removeFirstBy (p : α → Bool) : List α → List α
  | [] => []
  | a :: as => if p a then as else a :: removeFirstBy p as

/-- `Object.assign(existingDevice, \x7b...device, lastSeen: now\x7d)` of the
POST /api/devices update branch: every key present in the body overwrites the
stored field, then lastSeen is refreshed. -/
def mergeDevice (inp : DeviceInput) (now : Nat) (d : Device) : Device :=
  { d with
    token := inp.token
    userId := match inp.userId with | some u => some u | none => d.userId
    platform := match inp.platform with | some p => p | none => d.platform
    deviceName := match inp.deviceName with | some n => some n | none => d.deviceName
    email := match inp.email with | some e => some e | none => d.email
    lastSeen := now }

/-- The freshly pushed record of the POST /api/devices append branch: generated
id and timestamps, platform defaulted to "android", then the body spread on
top (so a present body field wins). -/
def freshDevice (inp : DeviceInput) (now : Nat) : Device :=
  { id := toString now
    token := inp.token
    userId := inp.userId
    platform := inp.platform.getD "android"
    deviceName := inp.deviceName
    email := inp.email
    createdAt := now
    lastSeen := now }

/-- POST /api/devices (src/server/index.js lines 167-204): upsert by token.
Returns the updated state and the resolved device id. -/
def registerDevice (st : St) (inp : DeviceInput) (now : Nat) :
    Except Err (St × String) :=
  if inp.token = "" then .error (.validation "FCM token is required")
  else
    match st.devices.find? (fun d => d.token = inp.token) with
    | some d =>
        .ok ({ st with
                devices := updateFirstBy (fun d' => d'.token = inp.token)
                  (mergeDevice inp now) st.devices }, d.id)
    | none =>
        let nd := freshDevice inp now
        .ok ({ st with devices := st.devices ++ [nd] }, nd.id)

/-- POST /api/messages: append a pending record. -/
def createMessage (st : St) (title body : String) (now : Nat) :
    Except Err (St × PendingMsg) :=
  if title = "" ∨ body = "" then .error (.validation "Title and body are required")
  else
    let m : PendingMsg := ⟨toString now, title, body, now, "pending"⟩
    .ok ({ st with pending := st.pending ++ [m] }, m)

/-- The recipient snapshot taken from a device at send time. -/
def mkRecipient (d : Device) : Recipient :=
  ⟨d.id, d.token, d.userId, "sent", none⟩

/-- POST /api/messages/send (src/server/index.js lines 256-307): empty-registry
check, then message lookup, then splice from pending and append to sent with a
full-registry recipient snapshot. -/
def sendMessage (st : St) (mid : String) (now : Nat) :
    Except Err (St × SentMsg) :=
  if mid = "" then .error (.validation "Message ID is required")
  else if st.devices.isEmpty then .error (.notFound "No devices registered")
  else
    match st.pending.find? (fun m => m.id = mid) with
    | none => .error (.notFound "Message not found")
    | some m =>
        let sm : SentMsg :=
          { id := m.id, title := m.title, body := m.body,
            createdAt := m.createdAt, sentAt := now, status := "sent",
            targetType := none, recipients := st.devices.map mkRecipient }
        .ok ({ st with
                pending := removeFirstBy (fun m' => m'.id = mid) st.pending,
                sent := st.sent ++ [sm] }, sm)

/-- Recipient selection of POST /api/messages/send-targeted:
`targetUsers && targetUsers.length > 0 ? filter : all`. -/
def selectTargets (devices : List Device) : Option (List String) → List Device
  | some l =>
      if 0 < l.length then
        devices.filter (fun d =>
          match d.userId with
          | some u => l.contains u
          | none => false)
      else devices
  | none => devices

/-- POST /api/messages/send-targeted (src/server/index.js lines 471-529):
message lookup, recipient selection, empty-selection 404 (before any
mutation), then splice from pending and append to sent tagged with
`targetType = targetUsers ? "specific" : "all"`. Returns the number of
recipients. -/
def sendTargeted (st : St) (mid : String) (targets : Option (List String))
    (now : Nat) : Except Err (St × Nat) :=
  if mid = "" then .error (.validation "Message ID is required")
  else
    match st.pending.find? (fun m => m.id = mid) with
    | none => .error (.notFound "Message not found")
    | some m =>
        let targetDevices := selectTargets st.devices targets
        if targetDevices.isEmpty then
          .error (.notFound "No matching devices found for specified users")
        else
          let sm : SentMsg :=
            { id := m.id, title := m.title, body := m.body,
              createdAt := m.createdAt, sentAt := now, status := "sent",
              targetType := some (if targets.isSome then "specific" else "all"),
              recipients := targetDevices.map mkRecipient }
          .ok ({ st with
                  pending := removeFirstBy (fun m' => m'.id = mid) st.pending,
                  sent := st.sent ++ [sm] }, targetDevices.length)

/-- Flip the first matching recipient of a sent message to read. -/
def markRecipientRead (did : String) (now : Nat) (sm : SentMsg) : SentMsg :=
  { sm with
    recipients := updateFirstBy (fun r => r.deviceId = did)
      (fun r => { r with status := "read", readAt := some now }) sm.recipients }

/-- POST /api/messages/read: find the sent message, find the recipient entry,
set status "read" and readAt. -/
def markRead (st : St) (mid did : String) (now : Nat) : Except Err St :=
  if mid = "" ∨ did = "" then
    .error (.validation "Message ID and Device ID are required")
  else
    match st.sent.find? (fun m => m.id = mid) with
    | none => .error (.notFound "Message not found")
    | some m =>
        if m.recipients.any (fun r => r.deviceId = did) then
          .ok { st with
                  sent := updateFirstBy (fun m' => m'.id = mid)
                    (markRecipientRead did now) st.sent }
        else .error (.notFound "Recipient not found")

/-- POST /api/broadcasts/send: snapshot every current device id into
`recipients`, start `receivedBy` empty. Returns the broadcast id and the
recipient count. -/
def sendBroadcast (st : St) (title message btype : String) (now : Nat) :
    Except Err (St × String × Nat) :=
  if title = "" ∨ message = "" then
    .error (.validation "Title and message are required")
  else if st.devices.isEmpty then .error (.notFound "No devices registered")
  else
    let b : Broadcast :=
      { id := toString now, title := title, message := message, btype := btype,
        sentAt := now, recipients := st.devices.map (fun d => d.id),
        receivedBy := [] }
    .ok ({ st with broadcasts := st.broadcasts ++ [b] }, b.id, st.devices.length)

/-- `if (!receivedBy.includes(deviceId)) receivedBy.push(deviceId)`. -/
def addReceived (did : String) (b : Broadcast) : Broadcast :=
  if b.receivedBy.contains did then b
  else { b with receivedBy := b.receivedBy ++ [did] }

/-- POST /api/broadcasts/received (src/server/index.js lines 407-462): both ids
required, broadcast lookup, set-insert the device id into receivedBy. -/
def postBroadcastReceived (st : St) (bid did : String) : Except Err St :=
  if bid = "" ∨ did = "" then
    .error (.validation "Broadcast ID and Device ID are required")
  else
    match st.broadcasts.find? (fun b => b.id = bid) with
    | none => .error (.notFound "Broadcast not found")
    | some _ =>
        .ok { st with
                broadcasts := updateFirstBy (fun b => b.id = bid)
                  (addReceived did) st.broadcasts }

/-- POST /api/messages/broadcasts/received (src/unnamed/part_001 lines
640-677), the alias path: same checks and same effect as
`postBroadcastReceived`. -/
def aliasBroadcastReceived (st : St) (bid did : String) : Except Err St :=
  if bid = "" ∨ did = "" then
    .error (.validation "Broadcast ID and Device ID are required")
  else
    match st.broadcasts.find? (fun b => b.id = bid) with
    | none => .error (.notFound "Broadcast not found")
    | some _ =>
        .ok { st with
                broadcasts := updateFirstBy (fun b => b.id = bid)
                  (addReceived did) st.broadcasts }

/-- PUT /api/broadcasts (src/unnamed/part_001 lines 468-504): only the
broadcast id is validated; the device id is inserted into receivedBy only when
it is present and the body carries `status = "received"`; otherwise the
handler still answers success. -/
def putBroadcast (st : St) (bid : String) (did : Option String)
    (status : Option String) : Except Err St :=
  if bid = "" then .error (.validation "Broadcast ID is required")
  else
    match st.broadcasts.find? (fun b => b.id = bid) with
    | none => .error (.notFound "Broadcast not found")
    | some _ =>
        match did with
        | some d =>
            if d ≠ "" ∧ status = some "received" then
              .ok { st with
                      broadcasts := updateFirstBy (fun b => b.id = bid)
                        (addReceived d) st.broadcasts }
            else .ok st
        | none => .ok st

/-- PATCH /api/broadcasts (src/unnamed/part_001 lines 507-543): the handler
body is identical to the PUT handler. -/
def patchBroadcast (st : St) (bid : String) (did : Option String)
    (status : Option String) : Except Err St :=
  if bid = "" then .error (.validation "Broadcast ID is required")
  else
    match st.broadcasts.find? (fun b => b.id = bid) with
    | none => .error (.notFound "Broadcast not found")
    | some _ =>
        match did with
        | some d =>
            if d ≠ "" ∧ status = some "received" then
              .ok { st with
                      broadcasts := updateFirstBy (fun b => b.id = bid)
                        (addReceived d) st.broadcasts }
            else .ok st
        | none => .ok st

/-- The per-device update of the POST /api/users update branch: truthy-or
fallbacks for email and display name, lastSeen refresh, and a token overwrite
whenever the body carries a truthy token. -/
def upsertDeviceUpdate (inp : UserInput) (now : Nat) (d : Device) : Device :=
  { d with
    email := if strPresent inp.email then inp.email else d.email
    deviceName :=
      if strPresent inp.displayName then inp.displayName
      else if strPresent inp.email then inp.email
      else d.deviceName
    lastSeen := now
    token :=
      match inp.token with
      | some t => if t ≠ "" then t else d.token
      | none => d.token }

/-- POST /api/users (src/unnamed/part_001 lines 776-829): requires an id; if
the user owns no device and a truthy token is supplied, synthesize one
placeholder device; if the user owns devices, rewrite every one of them with
`upsertDeviceUpdate`; otherwise change nothing. Returns the reported
deviceCount. -/
def upsertUser (st : St) (inp : UserInput) (now : Nat) :
    Except Err (St × Nat) :=
  if inp.id = "" then .error (.validation "User ID is required")
  else
    let userDevices := st.devices.filter (fun d => d.userId = some inp.id)
    if userDevices.isEmpty then
      match inp.token with
      | some t =>
          if t ≠ "" then
            let nd : Device :=
              { id := toString now, token := t, userId := some inp.id,
                platform := orDefault inp.platform "unknown",
                deviceName := some (orDefault inp.deviceName inp.id),
                email := inp.email, createdAt := now, lastSeen := now }
            .ok ({ st with devices := st.devices ++ [nd] }, 1)
          else .ok (st, 0)
      | none => .ok (st, 0)
    else
      .ok ({ st with
              devices := st.devices.map (fun d =>
                if d.userId = some inp.id then upsertDeviceUpdate inp now d
                else d) },
           userDevices.length)

/-- One inbound request to any state-mutating handler. -/
inductive Op where
  | register (inp : DeviceInput) (now : Nat)
  | compose (title body : String) (now : Nat)
  | send (mid : String) (now : Nat)
  | sendT (mid : String) (targets : Option (List String)) (now : Nat)
  | markR (mid did : String) (now : Nat)
  | bsend (title message btype : String) (now : Nat)
  | breceived (bid did : String)
  | bput (bid : String) (did : Option String) (status : Option String)
  | bpatch (bid : String) (did : Option String) (status : Option String)
  | balias (bid did : String)
  | uupsert (inp : UserInput) (now : Nat)

/-- Whether the operation is a POST /api/users request. -/
def Op.isUserUpsert : Op → Bool
  | .uupsert _ _ => true
  | _ => false

/-- The post-state of a handler that also returns a payload: an error leaves
the state untouched. -/
def okState (st : St) : Except Err (St × α) → St
  | .ok (st', _) => st'
  | .error _ => st

/-- The post-state of a handler returning only a state. -/
def okStateS (st : St) : Except Err St → St
  | .ok st' => st'
  | .error _ => st

/-- The transition function: dispatch one request and keep the post-state. -/
def step (st : St) : Op → St
  | .register inp now => okState st (registerDevice st inp now)
  | .compose t b now => okState st (createMessage st t b now)
  | .send mid now => okState st (sendMessage st mid now)
  | .sendT mid ts now => okState st (sendTargeted st mid ts now)
  | .markR mid did now => okStateS st (markRead st mid did now)
  | .bsend t m ty now => okState st (sendBroadcast st t m ty now)
  | .breceived bid did => okStateS st (postBroadcastReceived st bid did)
  | .bput bid did status => okStateS st (putBroadcast st bid did status)
  | .bpatch bid did status => okStateS st (patchBroadcast st bid did status)
  | .balias bid did => okStateS st (aliasBroadcastReceived st bid did)
  | .uupsert inp now => okState st (upsertUser st inp now)

/-- Run a request sequence from the empty initial state. -/
def runOps (ops : List Op) : St := ops.foldl step initSt

/-- A state is reachable when some request sequence produces it. -/
def Reachable (st : St) : Prop := ∃ ops, st = runOps ops

/-! ### Helper lemmas about the in-place-update idioms -/

theorem updateFirstBy_find? {p : α → Bool} {f : α → α} {a : α} :
    ∀ {l : List α}, l.find? p = some a → p (f a) = true →
      (updateFirstBy p f l).find? p = some (f a)
  | [], h, _ => by simp at h
  | x :: xs, h, hfa => by
    by_cases hp : p x
    · rw [List.find?_cons_of_pos _ hp] at h
      injection h with h
      subst h
      simp [updateFirstBy, hp, List.find?_cons_of_pos _ hfa]
    · rw [List.find?_cons_of_neg _ hp] at h
      simp only [updateFirstBy, if_neg hp]
      rw [List.find?_cons_of_neg _ hp]
      exact updateFirstBy_find? h hfa

theorem updateFirstBy_eq_self {p : α → Bool} {f : α → α} {a : α} :
    ∀ {l : List α}, l.find? p = some a → f a = a → updateFirstBy p f l = l
  | [], h, _ => by simp at h
  | x :: xs, h, hfa => by
    by_cases hp : p x
    · rw [List.find?_cons_of_pos _ hp] at h
      injection h with h
      subst h
      simp [updateFirstBy, hp, hfa]
    · rw [List.find?_cons_of_neg _ hp] at h
      simp only [updateFirstBy, if_neg hp]
      rw [updateFirstBy_eq_self h hfa]

theorem updateFirstBy_map {p : α → Bool} {f : α → α} {g : α → β}
    (hg : ∀ a, p a = true → g (f a) = g a) :
    ∀ l : List α, (updateFirstBy p f l).map g = l.map g
  | [] => rfl
  | x :: xs => by
    by_cases hp : p x
    · simp [updateFirstBy, hp, hg x hp]
    · simp [updateFirstBy, hp, updateFirstBy_map hg xs]

theorem updateFirstBy_length {p : α → Bool} {f : α → α} :
    ∀ l : List α, (updateFirstBy p f l).length = l.length
  | [] => rfl
  | x :: xs => by
    by_cases hp : p x
    · simp [updateFirstBy, hp]
    · simp [updateFirstBy, hp, updateFirstBy_length xs]

theorem removeFirstBy_no_more {p : α → Bool} :
    ∀ l : List α, (l.filter p).length ≤ 1 → ∀ x ∈ removeFirstBy p l, ¬ p x
  | [], _, x, hx => by simp [removeFirstBy] at hx
  | a :: as, h, x, hx => by
    by_cases hp : p a
    · rw [List.filter_cons_of_pos hp] at h
      simp only [List.length_cons] at h
      have h0 : as.filter p = [] :=
        List.eq_nil_of_length_eq_zero (by omega)
      simp only [removeFirstBy, if_pos hp] at hx
      exact List.filter_eq_nil_iff.mp h0 x hx
    · rw [List.filter_cons_of_neg hp] at h
      simp only [removeFirstBy, if_neg hp, List.mem_cons] at hx
      rcases hx with rfl | hx
      · exact hp
      · exact removeFirstBy_no_more as h x hx

/-! ### Shape lemmas: which collections each handler can touch -/

theorem registerDevice_ok_shape {st st' : St} {inp : DeviceInput} {now : Nat}
    {i : String} (h : registerDevice st inp now = .ok (st', i)) :
    st'.pending = st.pending ∧ st'.sent = st.sent ∧
      st'.broadcasts = st.broadcasts := by
  unfold registerDevice at h
  split at h
  · exact absurd h (by simp)
  · split at h <;>
      (simp only [Except.ok.injEq, Prod.mk.injEq] at h
       obtain ⟨h1, -⟩ := h
       subst h1
       exact ⟨rfl, rfl, rfl⟩)

theorem step_register_sent (st : St) (inp : DeviceInput) (now : Nat) :
    (step st (Op.register inp now)).sent = st.sent := by
  simp only [step]
  rcases h : registerDevice st inp now with e | ⟨st', i⟩
  · rfl
  · exact (registerDevice_ok_shape h).2.1

/-! ### Concrete sample data for witnesses and counterexamples -/

/-- A sample registered device with token "t1" owned by user "u1". -/
def devT1 : Device := ⟨"1", "t1", some "u1", "android", none, none, 1, 1⟩

/-- A sample pending message with id "m1". -/
def msgM1 : PendingMsg := ⟨"m1", "A", "B", 0, "pending"⟩

/-- A sample state: one device, one pending message. -/
def st1 : St := ⟨[devT1], [msgM1], [], []⟩

/-! ### C1 -/

/-- C1: from any state whose device registry is non-empty, whose pending
collection holds exactly one message with the requested id, and whose sent
collection holds none, `sendMessage` succeeds, the id disappears from pending,
the sent collection gains exactly one record with that id, that record has
status "sent" and one recipient per device registered at the moment of
sending (each initialized to status "sent" and readAt none), and a later
device registration leaves the sent collection untouched. -/
theorem sendMessage_atomic_snapshot (st : St) (mid : String) (now : Nat)
    (hmid : mid ≠ "") (hdev : st.devices ≠ [])
    (hpend : (st.pending.filter (fun m => m.id = mid)).length = 1)
    (hsent : ∀ s ∈ st.sent, s.id ≠ mid) :
    ∃ st' sm, sendMessage st mid now = .ok (st', sm) ∧
      (∀ p ∈ st'.pending, p.id ≠ mid) ∧
      st'.sent.filter (fun s => s.id = mid) = [sm] ∧
      sm.id = mid ∧ sm.status = "sent" ∧
      sm.recipients = st.devices.map mkRecipient ∧
      sm.recipients.length = st.devices.length ∧
      (∀ r ∈ sm.recipients, r.status = "sent" ∧ r.readAt = none) ∧
      (∀ inp t, (step st' (Op.register inp t)).sent = st'.sent) := by
  have hne : st.pending.filter (fun m => m.id = mid) ≠ [] := by
    intro h0
    rw [h0] at hpend
    exact absurd hpend (by simp)
  obtain ⟨m0, hm0⟩ := List.exists_mem_of_ne_nil _ hne
  have hm0' := List.mem_filter.mp hm0
  have hfs : (st.pending.find? (fun m => m.id = mid)).isSome :=
    List.find?_isSome.mpr ⟨m0, hm0'.1, hm0'.2⟩
  obtain ⟨m, hfind⟩ := Option.isSome_iff_exists.mp hfs
  have hmId : m.id = mid := by simpa using List.find?_some hfind
  have hIE : ¬ (st.devices.isEmpty = true) := by
    simpa [List.isEmpty_iff] using hdev
  let sm0 : SentMsg :=
    { id := m.id, title := m.title, body := m.body, createdAt := m.createdAt,
      sentAt := now, status := "sent", targetType := none,
      recipients := st.devices.map mkRecipient }
  let stRes : St :=
    { st with
      pending := removeFirstBy (fun m' => m'.id = mid) st.pending,
      sent := st.sent ++ [sm0] }
  refine ⟨stRes, sm0, ?_, ?_, ?_, ?_, ?_, ?_, ?_, ?_, ?_⟩
  · unfold sendMessage
    rw [if_neg hmid, if_neg hIE, hfind]
  · intro p hp
    have := removeFirstBy_no_more st.pending (Nat.le_of_eq hpend) p hp
    simpa using this
  · rw [List.filter_append]
    have h1 : st.sent.filter (fun s => s.id = mid) = [] :=
      List.filter_eq_nil_iff.mpr (fun s hs => by simpa using hsent s hs)
    rw [h1]
    simp [hmId]
  · exact hmId
  · rfl
  · rfl
  · simp
  · intro r hr
    obtain ⟨d, -, rfl⟩ := List.mem_map.mp hr
    exact ⟨rfl, rfl⟩
  · intro inp t
    exact step_register_sent _ inp t

/-- C1 witness: the theorem applied to the one-device, one-pending-message
state at message id "m1" and send time 5. -/
theorem sendMessage_atomic_snapshot_witness :
    ∃ st' sm, sendMessage st1 "m1" 5 = .ok (st', sm) ∧
      (∀ p ∈ st'.pending, p.id ≠ "m1") ∧
      st'.sent.filter (fun s => s.id = "m1") = [sm] ∧
      sm.id = "m1" ∧ sm.status = "sent" ∧
      sm.recipients = st1.devices.map mkRecipient ∧
      sm.recipients.length = st1.devices.length ∧
      (∀ r ∈ sm.recipients, r.status = "sent" ∧ r.readAt = none) ∧
      (∀ inp t, (step st' (Op.register inp t)).sent = st'.sent) :=
  sendMessage_atomic_snapshot st1 "m1" 5 (by decide) (by decide)
    (by decide) (by decide)

/-! ### C4 -/

/-- C4: with an empty device registry, `sendMessage` fails with the
no-devices NotFound for every provided message id — whether or not a pending
message with that id exists — because the registry check precedes the
message-existence check; the state is unchanged. -/
theorem sendMessage_empty_registry (st : St) (mid : String) (now : Nat)
    (hmid : mid ≠ "") (hdev : st.devices = []) :
    sendMessage st mid now = .error (.notFound "No devices registered") ∧
    step st (Op.send mid now) = st := by
  have h1 : sendMessage st mid now =
      .error (.notFound "No devices registered") := by
    unfold sendMessage
    rw [if_neg hmid, if_pos (by simp [hdev])]
  exact ⟨h1, by simp [step, h1, okState]⟩

/-- A state with the pending message "m1" and no devices at all. -/
def stNoDev : St := ⟨[], [msgM1], [], []⟩

/-- C4 witness: the empty-registry state still holding pending message "m1";
sending "m1" fails with the no-devices NotFound and changes nothing. -/
theorem sendMessage_empty_registry_witness :
    sendMessage stNoDev "m1" 5 = .error (.notFound "No devices registered") ∧
    step stNoDev (Op.send "m1" 5) = stNoDev :=
  sendMessage_empty_registry stNoDev "m1" 5 (by decide) (by decide)

/-! ### C3 -/

/-- C3: when a pending message with the requested id exists but the recipient
selection of `sendTargeted` is empty (no device's user is in the non-empty
target set, or no devices exist in the all-devices branch), the handler fails
with the no-matching-devices NotFound and the state — in particular the
pending collection — is unchanged: the message is not removed. -/
theorem sendTargeted_empty_selection (st : St) (mid : String)
    (targets : Option (List String)) (now : Nat)
    (hmid : mid ≠ "")
    (hex : ∃ m ∈ st.pending, m.id = mid)
    (hsel : selectTargets st.devices targets = []) :
    sendTargeted st mid targets now =
      .error (.notFound "No matching devices found for specified users") ∧
    step st (Op.sendT mid targets now) = st := by
  obtain ⟨m0, hm0, hid0⟩ := hex
  have hfs : (st.pending.find? (fun m => m.id = mid)).isSome :=
    List.find?_isSome.mpr ⟨m0, hm0, by simpa using hid0⟩
  obtain ⟨m, hfind⟩ := Option.isSome_iff_exists.mp hfs
  have h1 : sendTargeted st mid targets now =
      .error (.notFound "No matching devices found for specified users") := by
    unfold sendTargeted
    rw [if_neg hmid, hfind]
    simp [hsel]
  exact ⟨h1, by simp [step, h1, okState]⟩

/-- C3 witness: the one-device (owner "u1"), one-pending-message state,
targeted at the unknown user "u9" — the selection is empty, the handler
answers the no-matching-devices NotFound, and "m1" stays pending. -/
theorem sendTargeted_empty_selection_witness :
    sendTargeted st1 "m1" (some ["u9"]) 5 =
      .error (.notFound "No matching devices found for specified users") ∧
    step st1 (Op.sendT "m1" (some ["u9"]) 5) = st1 :=
  sendTargeted_empty_selection st1 "m1" (some ["u9"]) 5 (by decide)
    (by decide) (by decide)

/-! ### C10 -/

/-- C10: `upsertUser` for a user identifier owning zero devices, called
without a push token, succeeds reporting deviceCount 0 and leaves the state
(in particular the devices collection) completely unchanged. -/
theorem upsertUser_zero_devices_no_token (st : St) (inp : UserInput)
    (now : Nat) (hid : inp.id ≠ "")
    (hnone : ∀ d ∈ st.devices, d.userId ≠ some inp.id)
    (htok : strPresent inp.token = false) :
    upsertUser st inp now = .ok (st, 0) := by
  have hfil : st.devices.filter (fun d => d.userId = some inp.id) = [] :=
    List.filter_eq_nil_iff.mpr (fun d hd => by simpa using hnone d hd)
  unfold upsertUser
  rw [if_neg hid]
  simp only [hfil]
  cases htokv : inp.token with
  | none => simp
  | some t =>
      have ht : t = "" := by
        by_contra hne
        rw [htokv] at htok
        simp [strPresent, hne] at htok
      subst ht
      simp

/-- C10 witness: upserting the deviceless user "u2" with no token against the
one-device state owned by "u1" returns success with deviceCount 0 and the
unchanged state. -/
theorem upsertUser_zero_devices_no_token_witness :
    upsertUser st1 ⟨"u2", none, none, none, none, none⟩ 7 = .ok (st1, 0) :=
  upsertUser_zero_devices_no_token st1 ⟨"u2", none, none, none, none, none⟩ 7
    (by decide) (by decide) (by decide)

/-! ### C9 -/

/-- C9: registering a device whose token is not yet in the registry appends
exactly one record (the device count grows by exactly one); registering a
token that is already present keeps the device count unchanged and refreshes
the matched record's lastSeen to the (monotone) current time, which is at
least its previous lastSeen. -/
theorem registerDevice_count_lastSeen (st : St) (inp : DeviceInput)
    (now : Nat) (htok : inp.token ≠ "") :
    ((∀ d ∈ st.devices, d.token ≠ inp.token) →
      ∃ st' i, registerDevice st inp now = .ok (st', i) ∧
        st'.devices.length = st.devices.length + 1) ∧
    (∀ d, st.devices.find? (fun x => x.token = inp.token) = some d →
      d.lastSeen ≤ now →
      ∃ st' i, registerDevice st inp now = .ok (st', i) ∧
        st'.devices.length = st.devices.length ∧
        ∃ d', st'.devices.find? (fun x => x.token = inp.token) = some d' ∧
          d'.lastSeen = now ∧ d.lastSeen ≤ d'.lastSeen) := by
  constructor
  · intro hfresh
    have hfind : st.devices.find? (fun d => d.token = inp.token) = none :=
      List.find?_eq_none.mpr (fun d hd => by simpa using hfresh d hd)
    refine ⟨{ st with devices := st.devices ++ [freshDevice inp now] },
            (freshDevice inp now).id, ?_, by simp⟩
    unfold registerDevice
    rw [if_neg htok, hfind]
  · intro d hfind hle
    refine ⟨{ st with
              devices := updateFirstBy (fun d' => d'.token = inp.token)
                (mergeDevice inp now) st.devices }, d.id, ?_, ?_, ?_⟩
    · unfold registerDevice
      rw [if_neg htok, hfind]
    · simpa using updateFirstBy_length st.devices
    · refine ⟨mergeDevice inp now d, ?_, rfl, ?_⟩
      · exact updateFirstBy_find? hfind (by simp [mergeDevice])
      · simpa [mergeDevice] using hle

/-- C9 witness: re-registering the known token "t1" at time 5 against the
one-device state — the count stays 1 and lastSeen moves from 1 up to 5 (the
fresh-token half is stated with its hypothesis at the same input). -/
theorem registerDevice_count_lastSeen_witness :
    ((∀ d ∈ st1.devices, d.token ≠ "t1") →
      ∃ st' i, registerDevice st1 ⟨"t1", none, none, none, none⟩ 5 =
          .ok (st', i) ∧ st'.devices.length = st1.devices.length + 1) ∧
    (∀ d, st1.devices.find? (fun x => x.token = "t1") = some d →
      d.lastSeen ≤ 5 →
      ∃ st' i, registerDevice st1 ⟨"t1", none, none, none, none⟩ 5 =
          .ok (st', i) ∧
        st'.devices.length = st1.devices.length ∧
        ∃ d', st'.devices.find? (fun x => x.token = "t1") = some d' ∧
          d'.lastSeen = 5 ∧ d.lastSeen ≤ d'.lastSeen) :=
  registerDevice_count_lastSeen st1 ⟨"t1", none, none, none, none⟩ 5
    (by decide)

/-! ### C7 -/

/-- C7: `markBroadcastReceived` has idempotent set semantics: when the
broadcast exists (with duplicate-free receivedBy), the call succeeds, the
device id afterwards occurs exactly once in receivedBy, which stays
duplicate-free, and an immediately repeated call is a success-returning
no-op on the state. -/
theorem markBroadcastReceived_idempotent (st : St) (bid did : String)
    (b : Broadcast) (hbid : bid ≠ "") (hdid : did ≠ "")
    (hfind : st.broadcasts.find? (fun x => x.id = bid) = some b)
    (hnd : b.receivedBy.Nodup) :
    ∃ st' b', postBroadcastReceived st bid did = .ok st' ∧
      st'.broadcasts.find? (fun x => x.id = bid) = some b' ∧
      did ∈ b'.receivedBy ∧ b'.receivedBy.count did = 1 ∧
      b'.receivedBy.Nodup ∧
      postBroadcastReceived st' bid did = .ok st' := by
  have hval : ¬ (bid = "" ∨ did = "") := by simp [hbid, hdid]
  have hidb : b.id = bid := by simpa using List.find?_some hfind
  have hidb' : (addReceived did b).id = b.id := by
    unfold addReceived
    split <;> rfl
  let st' : St :=
    { st with
      broadcasts := updateFirstBy (fun x => x.id = bid)
        (addReceived did) st.broadcasts }
  have hfind' : st'.broadcasts.find? (fun x => x.id = bid) =
      some (addReceived did b) :=
    updateFirstBy_find? hfind (by simp [hidb', hidb])
  have hmem : did ∈ (addReceived did b).receivedBy := by
    unfold addReceived
    by_cases hc : b.receivedBy.contains did
    · rw [if_pos hc]
      simpa using hc
    · rw [if_neg hc]
      simp
  have hnd' : (addReceived did b).receivedBy.Nodup := by
    unfold addReceived
    by_cases hc : b.receivedBy.contains did
    · rw [if_pos hc]
      exact hnd
    · rw [if_neg hc]
      have hni : did ∉ b.receivedBy := by simpa using hc
      simp [List.nodup_append, hnd, hni]
  refine ⟨st', addReceived did b, ?_, hfind', hmem,
    List.count_eq_one_of_mem hnd' hmem, hnd', ?_⟩
  · unfold postBroadcastReceived
    rw [if_neg hval, hfind]
  · have hc' : (addReceived did b).receivedBy.contains did = true := by
      simpa using hmem
    have hStop : ∀ b0 : Broadcast, b0.receivedBy.contains did = true →
        addReceived did b0 = b0 := by
      intro b0 h0
      unfold addReceived
      rw [if_pos h0]
    have hAgain : addReceived did (addReceived did b) = addReceived did b :=
      hStop _ hc'
    have hsame : updateFirstBy (fun x => x.id = bid) (addReceived did)
        st'.broadcasts = st'.broadcasts :=
      updateFirstBy_eq_self hfind' hAgain
    unfold postBroadcastReceived
    rw [if_neg hval, hfind']
    rw [hsame]

/-- A sample broadcast addressed to device "1", with no receipts yet. -/
def bc1 : Broadcast := ⟨"b1", "hi", "yo", "info", 2, ["1"], []⟩

/-- A sample state holding only the broadcast `bc1`. -/
def stB : St := ⟨[], [], [], [bc1]⟩

/-- C7 witness: marking broadcast "b1" received by device "d9" in the
one-broadcast state — the receipt is recorded once, stays duplicate-free,
and the repeat call is a no-op success. -/
theorem markBroadcastReceived_idempotent_witness :
    ∃ st' b', postBroadcastReceived stB "b1" "d9" = .ok st' ∧
      st'.broadcasts.find? (fun x => x.id = "b1") = some b' ∧
      "d9" ∈ b'.receivedBy ∧ b'.receivedBy.count "d9" = 1 ∧
      b'.receivedBy.Nodup ∧
      postBroadcastReceived st' "b1" "d9" = .ok st' :=
  markBroadcastReceived_idempotent stB "b1" "d9" bc1 (by decide) (by decide)
    (by decide) (by decide)

/-! ### More shape lemmas: handlers other than device registration and user
upsert never touch the devices collection -/

/-- Whether the operation is a POST /api/devices request. -/
def Op.isRegister : Op → Bool
  | .register _ _ => true
  | _ => false

theorem createMessage_ok_devices {st st' : St} {t b : String} {now : Nat}
    {m : PendingMsg} (h : createMessage st t b now = .ok (st', m)) :
    st'.devices = st.devices := by
  unfold createMessage at h
  split at h
  · exact absurd h (by simp)
  · simp only [Except.ok.injEq, Prod.mk.injEq] at h
    obtain ⟨h1, -⟩ := h
    subst h1
    rfl

theorem sendMessage_ok_devices {st st' : St} {mid : String} {now : Nat}
    {sm : SentMsg} (h : sendMessage st mid now = .ok (st', sm)) :
    st'.devices = st.devices := by
  unfold sendMessage at h
  split at h
  · exact absurd h (by simp)
  split at h
  · exact absurd h (by simp)
  split at h
  · exact absurd h (by simp)
  · simp only [Except.ok.injEq, Prod.mk.injEq] at h
    obtain ⟨h1, -⟩ := h
    subst h1
    rfl

theorem sendTargeted_ok_devices {st st' : St} {mid : String}
    {ts : Option (List String)} {now : Nat} {n : Nat}
    (h : sendTargeted st mid ts now = .ok (st', n)) :
    st'.devices = st.devices := by
  unfold sendTargeted at h
  split at h
  · exact absurd h (by simp)
  split at h
  · exact absurd h (by simp)
  dsimp only at h
  split at h
  · exact absurd h (by simp)
  · simp only [Except.ok.injEq, Prod.mk.injEq] at h
    obtain ⟨h1, -⟩ := h
    subst h1
    rfl

theorem markRead_ok_devices {st st' : St} {mid did : String} {now : Nat}
    (h : markRead st mid did now = .ok st') : st'.devices = st.devices := by
  unfold markRead at h
  split at h
  · exact absurd h (by simp)
  split at h
  · exact absurd h (by simp)
  split at h
  · simp only [Except.ok.injEq] at h
    subst h
    rfl
  · exact absurd h (by simp)

theorem sendBroadcast_ok_devices {st st' : St} {t m ty : String} {now : Nat}
    {r : String × Nat} (h : sendBroadcast st t m ty now = .ok (st', r)) :
    st'.devices = st.devices := by
  unfold sendBroadcast at h
  split at h
  · exact absurd h (by simp)
  split at h
  · exact absurd h (by simp)
  · simp only [Except.ok.injEq, Prod.mk.injEq] at h
    obtain ⟨h1, -⟩ := h
    subst h1
    rfl

theorem postBroadcastReceived_ok_devices {st st' : St} {bid did : String}
    (h : postBroadcastReceived st bid did = .ok st') :
    st'.devices = st.devices := by
  unfold postBroadcastReceived at h
  split at h
  · exact absurd h (by simp)
  split at h
  · exact absurd h (by simp)
  · simp only [Except.ok.injEq] at h
    subst h
    rfl

theorem aliasBroadcastReceived_ok_devices {st st' : St} {bid did : String}
    (h : aliasBroadcastReceived st bid did = .ok st') :
    st'.devices = st.devices := by
  unfold aliasBroadcastReceived at h
  split at h
  · exact absurd h (by simp)
  split at h
  · exact absurd h (by simp)
  · simp only [Except.ok.injEq] at h
    subst h
    rfl

theorem putBroadcast_ok_devices {st st' : St} {bid : String}
    {did status : Option String}
    (h : putBroadcast st bid did status = .ok st') :
    st'.devices = st.devices := by
  unfold putBroadcast at h
  split at h
  · exact absurd h (by simp)
  split at h
  · exact absurd h (by simp)
  split at h
  · split at h <;>
      (simp only [Except.ok.injEq] at h
       subst h
       rfl)
  · simp only [Except.ok.injEq] at h
    subst h
    rfl

theorem patchBroadcast_ok_devices {st st' : St} {bid : String}
    {did status : Option String}
    (h : patchBroadcast st bid did status = .ok st') :
    st'.devices = st.devices := by
  unfold patchBroadcast at h
  split at h
  · exact absurd h (by simp)
  split at h
  · exact absurd h (by simp)
  split at h
  · split at h <;>
      (simp only [Except.ok.injEq] at h
       subst h
       rfl)
  · simp only [Except.ok.injEq] at h
    subst h
    rfl

/-- Every handler other than device registration and user upsert leaves the
devices collection untouched. -/
theorem step_devices_unchanged (st : St) (op : Op)
    (hreg : op.isRegister = false) (hups : op.isUserUpsert = false) :
    (step st op).devices = st.devices := by
  cases op with
  | register inp now => simp [Op.isRegister] at hreg
  | uupsert inp now => simp [Op.isUserUpsert] at hups
  | compose t b now =>
      simp only [step]
      rcases h : createMessage st t b now with e | ⟨st', m⟩
      · rfl
      · exact createMessage_ok_devices h
  | send mid now =>
      simp only [step]
      rcases h : sendMessage st mid now with e | ⟨st', sm⟩
      · rfl
      · exact sendMessage_ok_devices h
  | sendT mid ts now =>
      simp only [step]
      rcases h : sendTargeted st mid ts now with e | ⟨st', n⟩
      · rfl
      · exact sendTargeted_ok_devices h
  | markR mid did now =>
      simp only [step]
      rcases h : markRead st mid did now with e | st'
      · rfl
      · exact markRead_ok_devices h
  | bsend t m ty now =>
      simp only [step]
      rcases h : sendBroadcast st t m ty now with e | ⟨st', r⟩
      · rfl
      · exact sendBroadcast_ok_devices h
  | breceived bid did =>
      simp only [step]
      rcases h : postBroadcastReceived st bid did with e | st'
      · rfl
      · exact postBroadcastReceived_ok_devices h
  | bput bid did status =>
      simp only [step]
      rcases h : putBroadcast st bid did status with e | st'
      · rfl
      · exact putBroadcast_ok_devices h
  | bpatch bid did status =>
      simp only [step]
      rcases h : patchBroadcast st bid did status with e | st'
      · rfl
      · exact patchBroadcast_ok_devices h
  | balias bid did =>
      simp only [step]
      rcases h : aliasBroadcastReceived st bid did with e | st'
      · rfl
      · exact aliasBroadcastReceived_ok_devices h

/-- Device registration preserves duplicate-freeness of the stored tokens:
the update branch rewrites a record without changing its token, and the
append branch adds a token that the registry did not contain. -/
theorem step_register_tokens (st : St) (inp : DeviceInput) (now : Nat)
    (h : (st.devices.map (fun d => d.token)).Nodup) :
    (((step st (Op.register inp now)).devices.map
      (fun d => d.token))).Nodup := by
  simp only [step]
  rcases h' : registerDevice st inp now with e | ⟨st', i⟩
  · exact h
  · unfold registerDevice at h'
    split at h'
    · exact absurd h' (by simp)
    split at h'
    case _ d heq =>
      simp only [Except.ok.injEq, Prod.mk.injEq] at h'
      obtain ⟨h1, -⟩ := h'
      subst h1
      have hmap : (updateFirstBy (fun d' => d'.token = inp.token)
          (mergeDevice inp now) st.devices).map (fun d => d.token) =
          st.devices.map (fun d => d.token) := by
        apply updateFirstBy_map
        intro a ha
        have : a.token = inp.token := by simpa using ha
        simp [mergeDevice, this]
      simpa [okState, hmap] using h
    case _ heq =>
      simp only [Except.ok.injEq, Prod.mk.injEq] at h'
      obtain ⟨h1, -⟩ := h'
      subst h1
      have hni : inp.token ∉ st.devices.map (fun d => d.token) := by
        intro hmem
        obtain ⟨d, hd, hdt⟩ := List.mem_map.mp hmem
        exact absurd hdt (by simpa using List.find?_eq_none.mp heq d hd)
      simp [okState, freshDevice, List.nodup_append, h, hni]

/-! ### C2 -/

/-- The request sequence that breaks token uniqueness: user "u1" registers
two devices with distinct tokens, then POST /api/users rewrites both device
records with the same token "t3". -/
def c2Ops : List Op :=
  [.register ⟨"t1", some "u1", none, none, none⟩ 1,
   .register ⟨"t2", some "u1", none, none, none⟩ 2,
   .uupsert ⟨"u1", some "t3", none, none, none, none⟩ 3]

/-- C2 counterexample: token uniqueness is NOT an invariant of all handlers —
the state reached by registering two devices for user "u1" and then upserting
that user with token "t3" holds two device records with the same token. -/
theorem token_uniqueness_not_invariant :
    ¬ ∀ st, Reachable st → (st.devices.map (fun d => d.token)).Nodup := by
  intro h
  have h2 := h (runOps c2Ops) ⟨c2Ops, rfl⟩
  revert h2
  decide

/-- C2 amended: token uniqueness of the devices collection is preserved by
every handler except POST /api/users — in particular re-registering a known
token updates the matched record in place and never appends a duplicate —
but `upsertUser` with a token can overwrite several devices' tokens and
create duplicates. -/
theorem token_uniqueness_preserved_without_upsert (st : St) (op : Op)
    (hups : op.isUserUpsert = false)
    (h : (st.devices.map (fun d => d.token)).Nodup) :
    ((step st op).devices.map (fun d => d.token)).Nodup := by
  by_cases hreg : op.isRegister = true
  · cases op with
    | register inp now => exact step_register_tokens st inp now h
    | _ => simp_all [Op.isRegister]
  · rw [step_devices_unchanged st op (by simpa using hreg) hups]
    exact h

/-- C2 amended witness: re-registering the known token "t1" against the
one-device state keeps the token list duplicate-free. -/
theorem token_uniqueness_preserved_without_upsert_witness :
    ((step st1 (Op.register ⟨"t1", some "u2", none, none, none⟩ 9)).devices.map
      (fun d => d.token)).Nodup :=
  token_uniqueness_preserved_without_upsert st1
    (Op.register ⟨"t1", some "u2", none, none, none⟩ 9) (by decide) (by decide)

/-! ### C5 -/

/-- The sent record produced by targeting message "m1" at the present-but-
empty user list: the all-devices branch is taken, yet targetType is
"specific". -/
def c5Sm : SentMsg :=
  ⟨"m1", "A", "B", 0, 5, "sent", some "specific",
   [⟨"1", "t1", some "u1", "sent", none⟩]⟩

/-- The state after that send: pending emptied, one sent record. -/
def c5Res : St := ⟨[devT1], [], [c5Sm], []⟩

/-- C5 counterexample: the claim "targetType = 'specific' exactly when
targetUserIds is a non-empty set, and 'all' otherwise" fails when the request
carries an empty target list: the selection falls back to all devices, but
the record is tagged "specific" because the test for the tag is mere
presence of the list. -/
theorem sendTargeted_targetType_claim_false :
    ¬ ∀ (st : St) (mid : String) (ts : Option (List String)) (now : Nat)
        (st' : St) (n : Nat),
      sendTargeted st mid ts now = .ok (st', n) →
      ∀ s ∈ st'.sent, s.id = mid →
        (s.targetType = some "specific" ↔ ∃ l, ts = some l ∧ l ≠ []) := by
  intro h
  obtain ⟨l, hl, hne⟩ :=
    (h st1 "m1" (some []) 5 c5Res 1 rfl c5Sm (by decide)
      (by decide)).mp (by decide)
  exact hne (Option.some.inj hl).symm

/-- C5 amended: every successful `sendTargeted` appends one sent record whose
targetType is "specific" exactly when a targetUsers list was present in the
request (even an empty one) and "all" when it was absent, while the recipient
selection filters by user membership only when the list is present AND
non-empty. -/
theorem sendTargeted_targetType_presence (st : St) (mid : String)
    (ts : Option (List String)) (now : Nat) (st' : St) (n : Nat)
    (h : sendTargeted st mid ts now = .ok (st', n)) :
    ∃ sm, st'.sent = st.sent ++ [sm] ∧
      sm.targetType = some (if ts.isSome then "specific" else "all") ∧
      sm.recipients = (selectTargets st.devices ts).map mkRecipient ∧
      n = (selectTargets st.devices ts).length := by
  unfold sendTargeted at h
  split at h
  · exact absurd h (by simp)
  split at h
  · exact absurd h (by simp)
  dsimp only at h
  split at h
  · exact absurd h (by simp)
  · simp only [Except.ok.injEq, Prod.mk.injEq] at h
    obtain ⟨h1, h2⟩ := h
    subst h1
    exact ⟨_, rfl, rfl, rfl, h2.symm⟩

/-- C5 amended witness: the empty-target-list send against the one-device
state — a present list, so targetType "specific", and the all-devices
selection. -/
theorem sendTargeted_targetType_presence_witness :
    ∃ sm, c5Res.sent = st1.sent ++ [sm] ∧
      sm.targetType =
        some (if (some ([] : List String)).isSome then "specific" else "all") ∧
      sm.recipients =
        (selectTargets st1.devices (some [])).map mkRecipient ∧
      1 = (selectTargets st1.devices (some [])).length :=
  sendTargeted_targetType_presence st1 "m1" (some []) 5 c5Res 1 rfl

/-! ### C6 -/

/-- The request sequence refuting receivedBy ⊆ recipients: register one
device, broadcast to it, then confirm receipt with the unknown device id
"zz". -/
def c6Ops : List Op :=
  [.register ⟨"t1", none, none, none, none⟩ 1,
   .bsend "hi" "yo" "info" 2,
   .breceived "2" "zz"]

/-- C6 counterexample: receivedBy ⊆ recipients is NOT an invariant of the
reachable states — confirming a broadcast with a device id that is not among
its snapshotted recipients still inserts that id into receivedBy. -/
theorem receivedBy_subset_not_invariant :
    ¬ ∀ st, Reachable st → ∀ b ∈ st.broadcasts,
      ∀ d ∈ b.receivedBy, d ∈ b.recipients := by
  intro h
  have h2 := h (runOps c6Ops) ⟨c6Ops, rfl⟩
  revert h2
  decide

/-- C6 amended: `markBroadcastReceived` performs no recipients-membership
check at all — whenever the broadcast exists and the device id is not yet in
receivedBy, the id is appended, whether or not it is among the broadcast's
recipients; so receivedBy ⊆ recipients is not maintained by the code. -/
theorem markBroadcastReceived_ignores_recipients (st : St) (bid did : String)
    (b : Broadcast) (hbid : bid ≠ "") (hdid : did ≠ "")
    (hfind : st.broadcasts.find? (fun x => x.id = bid) = some b)
    (hnew : did ∉ b.receivedBy) :
    ∃ st', postBroadcastReceived st bid did = .ok st' ∧
      st'.broadcasts.find? (fun x => x.id = bid) =
        some { b with receivedBy := b.receivedBy ++ [did] } := by
  have hval : ¬ (bid = "" ∨ did = "") := by simp [hbid, hdid]
  have hidb : b.id = bid := by simpa using List.find?_some hfind
  have hadd : addReceived did b =
      { b with receivedBy := b.receivedBy ++ [did] } := by
    unfold addReceived
    rw [if_neg (by simpa using hnew)]
  refine ⟨{ st with
            broadcasts := updateFirstBy (fun x => x.id = bid)
              (addReceived did) st.broadcasts }, ?_, ?_⟩
  · unfold postBroadcastReceived
    rw [if_neg hval, hfind]
  · have hres := updateFirstBy_find? hfind
      (show (decide ((addReceived did b).id = bid)) = true by
        simp [hadd, hidb])
    rw [hadd] at hres
    exact hres

/-- C6 amended witness: device id "zz" is not among broadcast "b1"'s
recipients (only "1" is), yet confirming the receipt appends "zz" to
receivedBy. -/
theorem markBroadcastReceived_ignores_recipients_witness :
    ∃ st', postBroadcastReceived stB "b1" "zz" = .ok st' ∧
      st'.broadcasts.find? (fun x => x.id = "b1") =
        some { bc1 with receivedBy := bc1.receivedBy ++ ["zz"] } :=
  markBroadcastReceived_ignores_recipients stB "b1" "zz" bc1 (by decide)
    (by decide) (by decide) (by decide)

/-! ### C8 -/

/-- C8 counterexample: the four broadcast-receipt bindings are NOT
behaviorally equivalent — for a request carrying broadcast id "b1" and
device id "d1" but no status field, the POST binding records the receipt
while the PUT binding leaves receivedBy unchanged, so the resulting states
differ. -/
theorem broadcast_bindings_not_equivalent :
    step stB (Op.breceived "b1" "d1") ≠
      step stB (Op.bput "b1" (some "d1") none) := by
  decide

/-- C8 amended: the four bindings agree exactly on requests that carry the
broadcast id, the device id AND status = "received": there PUT, PATCH, the
POST path and its alias produce identical outcomes and states; without
status = "received" the PUT/PATCH bindings validate only the broadcast id
and never touch receivedBy, yet still answer success. -/
theorem broadcast_bindings_agree_on_received (st : St) (bid did : String)
    (hbid : bid ≠ "") (hdid : did ≠ "") :
    putBroadcast st bid (some did) (some "received") =
      postBroadcastReceived st bid did ∧
    patchBroadcast st bid (some did) (some "received") =
      putBroadcast st bid (some did) (some "received") ∧
    aliasBroadcastReceived st bid did = postBroadcastReceived st bid did := by
  have hval : ¬ (bid = "" ∨ did = "") := by simp [hbid, hdid]
  refine ⟨?_, rfl, rfl⟩
  unfold putBroadcast postBroadcastReceived
  rw [if_neg hbid, if_neg hval]
  cases hf : st.broadcasts.find? (fun b => b.id = bid) with
  | none => rfl
  | some b =>
      dsimp only
      rw [if_pos ⟨hdid, rfl⟩]

/-- C8 amended witness: at broadcast "b1" and device "d1" with
status "received", the PUT, PATCH and alias bindings coincide with the POST
binding. -/
theorem broadcast_bindings_agree_on_received_witness :
    putBroadcast stB "b1" (some "d1") (some "received") =
      postBroadcastReceived stB "b1" "d1" ∧
    patchBroadcast stB "b1" (some "d1") (some "received") =
      putBroadcast stB "b1" (some "d1") (some "received") ∧
    aliasBroadcastReceived stB "b1" "d1" =
      postBroadcastReceived stB "b1" "d1" :=
  broadcast_bindings_agree_on_received stB "b1" "d1" (by decide) (by decide)

end NotificationBackend
